import Mathlib

/-!
Verification of the sequential async file pipeline of the repository
(the function `fileOps` together with the `uncaughtException` handler).

The pipeline touches exactly three paths under `__dirname/files`:
`starter.txt`, `reply.txt`, `newreply.txt`.  We model the filesystem as
the contents (or absence) of those three files.  Each awaited call in
the source suspends the pipeline, so between any two steps the outside
world may change the filesystem; an `Interference` function models those
changes (the program itself corresponds to `noInterference`).
-/

namespace FilePipeline

/-- Filesystem state restricted to the three paths the pipeline touches:
`files/starter.txt`, `files/reply.txt`, `files/newreply.txt`.  `none`
means the file does not exist; `some s` means it exists with content `s`. -/
structure FS where
  starter : Option String
  reply : Option String
  newreply : Option String
deriving DecidableEq

/-- The six awaited filesystem operations of `fileOps`, in source order. -/
inductive Step
  | readStarter
  | unlinkStarter
  | writeReply
  | appendReply
  | renameReply
  | readNewreply
deriving DecidableEq

/-- Error kinds, following the Node `fs` errors the pipeline can see:
`NotFound` is ENOENT; `IOError` covers the other failure modes. -/
inductive ErrKind
  | NotFound
  | IOError
deriving DecidableEq

/-- A step failure: a Node `fs` error identifies the failing syscall and
its cause (code, syscall and path fields); we keep the failing step and
the error kind. -/
structure FsError where
  step : Step
  kind : ErrKind
deriving DecidableEq

/-- One console line: `console.log(data)`, `console.log(newData)` print
text; `console.log(err)` in the catch block prints the error object. -/
inductive ConsoleLine
  | text (s : String)
  | errLine (e : FsError)
deriving DecidableEq

/-- Outside-world changes to the filesystem: `inter k` is applied to the
state just before step `k` (0-indexed) runs.  The unmodified program run
uses `noInterference`. -/
abbrev Interference := Nat → FS → FS

/-- No outside process touches the files: every gap is the identity. -/
def noInterference : Interference := fun _ fs => fs

/-- The literal appended in step 4 of the source:
two newlines followed by the marker string. -/
def appendSuffix : String := "\n\nappending to this file"

/-- The six steps in declaration order. -/
def allSteps : List Step :=
  [.readStarter, .unlinkStarter, .writeReply, .appendReply, .renameReply, .readNewreply]

/-- Result of the try block when no step failed: final filesystem, the
console output, the executed steps in order, the content passed to
`writeFile` in step 3, and the content `newData` of the final read. -/
structure InnerOk where
  fs : FS
  log : List ConsoleLine
  trace : List Step
  written : String
  newData : String
deriving DecidableEq

/-- Result of the try block when a step failed: the filesystem at the
moment of failure, the console output so far, the steps that began
(in order, the failing one last), and the error thrown. -/
structure InnerErr where
  fs : FS
  log : List ConsoleLine
  trace : List Step
  err : FsError
deriving DecidableEq

/-- Step 6: `await fsPromises.readFile(files/newreply.txt, utf8)` then
`console.log(newData)`.  `fs` is the state after the rename; `data` is
the step 1 content (already logged). -/
def stepsFromReadNew (inter : Interference) (data : String) (fs : FS) :
    Except InnerErr InnerOk :=
  match (inter 5 fs).newreply with
  | none =>
      .error ⟨inter 5 fs, [.text data], allSteps, ⟨.readNewreply, .NotFound⟩⟩
  | some newData =>
      .ok ⟨inter 5 fs, [.text data, .text newData], allSteps, data, newData⟩

/-- Step 5: `await fsPromises.rename(files/reply.txt, files/newreply.txt)`.
`fs` is the state after the append.  POSIX rename: fails with ENOENT if
the source is absent, silently replaces the destination otherwise. -/
def stepsFromRename (inter : Interference) (data : String) (fs : FS) :
    Except InnerErr InnerOk :=
  match (inter 4 fs).reply with
  | none =>
      .error ⟨inter 4 fs, [.text data],
        [.readStarter, .unlinkStarter, .writeReply, .appendReply, .renameReply],
        ⟨.renameReply, .NotFound⟩⟩
  | some content =>
      stepsFromReadNew inter data
        { inter 4 fs with reply := none, newreply := some content }

/-- Step 4: `await fsPromises.appendFile(files/reply.txt, appendSuffix)`.
`fs` is the state after the write.  appendFile creates the file when it
is absent, hence the `getD` with the empty string. -/
def stepsFromAppend (inter : Interference) (data : String) (fs : FS) :
    Except InnerErr InnerOk :=
  stepsFromRename inter data
    { inter 3 fs with reply := some ((inter 3 fs).reply.getD "" ++ appendSuffix) }

/-- Step 3: `await fsPromises.writeFile(files/reply.txt, data)` — creates
or truncates the destination.  `fs` is the state after the unlink. -/
def stepsFromWrite (inter : Interference) (data : String) (fs : FS) :
    Except InnerErr InnerOk :=
  stepsFromAppend inter data { inter 2 fs with reply := some data }

/-- The try block of `fileOps`: step 1 reads `files/starter.txt` (ENOENT
when absent), `console.log(data)`, step 2 unlinks it, then steps 3 to 6.
The first failure aborts the chain with the thrown error. -/
def runSteps (inter : Interference) (fs0 : FS) : Except InnerErr InnerOk :=
  match (inter 0 fs0).starter with
  | none =>
      .error ⟨inter 0 fs0, [], [.readStarter], ⟨.readStarter, .NotFound⟩⟩
  | some data =>
      match (inter 1 (inter 0 fs0)).starter with
      | none =>
          .error ⟨inter 1 (inter 0 fs0), [.text data],
            [.readStarter, .unlinkStarter], ⟨.unlinkStarter, .NotFound⟩⟩
      | some _ =>
          stepsFromWrite inter data
            { inter 1 (inter 0 fs0) with starter := none }

/-- Observable outcome of one call of `fileOps`: the filesystem when the
promise settles, the console output, and the promise outcome.  The async
function has no return statement, so on resolution the value is
undefined, modelled as `Except.ok none`; `Except.error` would model a
rejected promise. -/
structure Outcome where
  fs : FS
  log : List ConsoleLine
  promise : Except FsError (Option String)

/-- The function fileOps: runs the try block; the catch block logs the error with
`console.log(err)` and returns normally, so the promise resolves (with
undefined) on both paths. -/
def fileOps (inter : Interference) (fs0 : FS) : Outcome :=
  match runSteps inter fs0 with
  | .ok o => ⟨o.fs, o.log, .ok none⟩
  | .error e => ⟨e.fs, e.log ++ [.errLine e.err], .ok none⟩

/-- The `uncaughtException` policy of the module: a pipeline error that
escapes `fileOps` (a rejected promise, raised as an uncaught exception)
is logged and the process exits with code 1; otherwise the pipeline
causes no abnormal exit (`none`). -/
def processExitCode (inter : Interference) (fs0 : FS) : Option Nat :=
  match (fileOps inter fs0).promise with
  | .ok _ => none
  | .error _ => some 1

/-- The executed-step trace of a run, on both outcomes. -/
def innerTrace : Except InnerErr InnerOk → List Step
  | .ok o => o.trace
  | .error e => e.trace

/-- Interference that deletes `files/reply.txt` just before the rename
step and touches nothing else: the simulation of a rename failure. -/
def dropReplyBeforeRename : Interference :=
  fun k fs => if k = 4 then { fs with reply := none } else fs

/-- Updating the reply field leaves the newreply field unchanged. -/
theorem upd_reply_newreply (x : FS) (v : Option String) :
    (FS.mk x.starter v x.newreply).newreply = x.newreply := rfl

/-- Updating the starter field leaves the newreply field unchanged. -/
theorem upd_starter_newreply (x : FS) (v : Option String) :
    (FS.mk v x.reply x.newreply).newreply = x.newreply := rfl

/-- An uninterfered run on a state without the starter file fails at the
first step, leaving the state untouched. -/
theorem runSteps_noInter_none (rp nr : Option String) :
    runSteps noInterference ⟨none, rp, nr⟩ =
      .error ⟨⟨none, rp, nr⟩, [], [.readStarter], ⟨.readStarter, .NotFound⟩⟩ := rfl

/-- An uninterfered run on a state whose starter file holds `d` runs all
six steps and succeeds, whatever the other two files held. -/
theorem runSteps_noInter_some (d : String) (rp nr : Option String) :
    runSteps noInterference ⟨some d, rp, nr⟩ =
      .ok ⟨⟨none, none, some (d ++ appendSuffix)⟩,
        [.text d, .text (d ++ appendSuffix)], allSteps, d, d ++ appendSuffix⟩ := rfl

/-- A successful run logs exactly the step 1 content and the final read
content, in that order. -/
theorem runSteps_ok_log (inter : Interference) (fs : FS) (o : InnerOk)
    (h : runSteps inter fs = .ok o) :
    o.log = [ConsoleLine.text o.written, ConsoleLine.text o.newData] := by
  unfold runSteps at h
  split at h
  · exact Except.noConfusion h
  · split at h
    · exact Except.noConfusion h
    · unfold stepsFromWrite stepsFromAppend stepsFromRename at h
      split at h
      · exact Except.noConfusion h
      · unfold stepsFromReadNew at h
        split at h
        · exact Except.noConfusion h
        · injection h with h2
          subst h2
          rfl

/-- The executed steps of any run form an initial segment of the six
declared steps: a run that reaches the write never stops before the
rename point, so its trace is either the first five steps or all six. -/
theorem trace_stepsFromWrite (inter : Interference) (d : String) (fs : FS) :
    innerTrace (stepsFromWrite inter d fs) = allSteps.take 5 ∨
    innerTrace (stepsFromWrite inter d fs) = allSteps := by
  unfold stepsFromWrite stepsFromAppend stepsFromRename
  split
  · exact Or.inl rfl
  · unfold stepsFromReadNew
    split
    · exact Or.inr rfl
    · exact Or.inr rfl

/-- C1: if `files/starter.txt` holds text T (the other two paths
unconstrained), the pipeline succeeds and the final filesystem has
`files/newreply.txt` = T followed by the append suffix, with
`files/starter.txt` and `files/reply.txt` absent. -/
theorem C1_success_effects (fs : FS) (T : String) (h : fs.starter = some T) :
    runSteps noInterference fs =
      .ok ⟨⟨none, none, some (T ++ appendSuffix)⟩,
        [.text T, .text (T ++ appendSuffix)], allSteps, T, T ++ appendSuffix⟩
    ∧ (fileOps noInterference fs).fs = ⟨none, none, some (T ++ appendSuffix)⟩ := by
  obtain ⟨st, rp, nr⟩ := fs
  have h2 : st = some T := h
  subst h2
  exact ⟨rfl, rfl⟩

/-- C1 witness: the concrete scenario with starter content hello. -/
theorem C1_success_effects_witness :
    runSteps noInterference ⟨some "hello", none, none⟩ =
      .ok ⟨⟨none, none, some ("hello" ++ appendSuffix)⟩,
        [.text "hello", .text ("hello" ++ appendSuffix)], allSteps, "hello",
        "hello" ++ appendSuffix⟩
    ∧ (fileOps noInterference ⟨some "hello", none, none⟩).fs =
        ⟨none, none, some ("hello" ++ appendSuffix)⟩ :=
  C1_success_effects ⟨some "hello", none, none⟩ "hello" rfl

/-- C4: if `files/starter.txt` is absent the run fails at step 1 with
NotFound and the filesystem is left exactly as it was. -/
theorem C4_notfound_no_mutation (fs : FS) (h : fs.starter = none) :
    runSteps noInterference fs =
      .error ⟨fs, [], [.readStarter], ⟨.readStarter, .NotFound⟩⟩
    ∧ (fileOps noInterference fs).fs = fs := by
  obtain ⟨st, rp, nr⟩ := fs
  have h2 : st = none := h
  subst h2
  exact ⟨rfl, rfl⟩

/-- C4 witness: starter absent while the other two files exist. -/
theorem C4_notfound_no_mutation_witness :
    runSteps noInterference ⟨none, some "x", some "y"⟩ =
      .error ⟨⟨none, some "x", some "y"⟩, [], [.readStarter],
        ⟨.readStarter, .NotFound⟩⟩
    ∧ (fileOps noInterference ⟨none, some "x", some "y"⟩).fs =
        ⟨none, some "x", some "y"⟩ :=
  C4_notfound_no_mutation ⟨none, some "x", some "y"⟩ rfl

/-- C6: on any successful uninterfered run, the content the final read
returns equals the content written in step 3 followed by the literal
append suffix of step 4 — the round-trip equation. -/
theorem C6_roundtrip (fs : FS) (o : InnerOk)
    (h : runSteps noInterference fs = .ok o) :
    o.newData = o.written ++ appendSuffix := by
  obtain ⟨st, rp, nr⟩ := fs
  rcases st with _ | d
  · rw [runSteps_noInter_none] at h
    exact Except.noConfusion h
  · rw [runSteps_noInter_some] at h
    injection h with h2
    subst h2
    rfl

/-- C6 witness: the round trip at starter content hi. -/
theorem C6_roundtrip_witness :
    (⟨⟨none, none, some ("hi" ++ appendSuffix)⟩,
      [.text "hi", .text ("hi" ++ appendSuffix)], allSteps, "hi",
      "hi" ++ appendSuffix⟩ : InnerOk).newData =
    (⟨⟨none, none, some ("hi" ++ appendSuffix)⟩,
      [.text "hi", .text ("hi" ++ appendSuffix)], allSteps, "hi",
      "hi" ++ appendSuffix⟩ : InnerOk).written ++ appendSuffix :=
  C6_roundtrip ⟨some "hi", none, none⟩
    ⟨⟨none, none, some ("hi" ++ appendSuffix)⟩,
      [.text "hi", .text ("hi" ++ appendSuffix)], allSteps, "hi",
      "hi" ++ appendSuffix⟩ rfl

/-- C7: running the pipeline a second time on the state the first run
left behind fails at step 1 with NotFound, since the first run deleted
`files/starter.txt` — the pipeline is single-use. -/
theorem C7_second_run_notfound (fs : FS) (d : String) (h : fs.starter = some d) :
    runSteps noInterference (fileOps noInterference fs).fs =
      .error ⟨⟨none, none, some (d ++ appendSuffix)⟩, [], [.readStarter],
        ⟨.readStarter, .NotFound⟩⟩ := by
  obtain ⟨st, rp, nr⟩ := fs
  have h2 : st = some d := h
  subst h2
  rfl

/-- C7 witness: two consecutive runs from starter content h. -/
theorem C7_second_run_notfound_witness :
    runSteps noInterference (fileOps noInterference ⟨some "h", none, none⟩).fs =
      .error ⟨⟨none, none, some ("h" ++ appendSuffix)⟩, [], [.readStarter],
        ⟨.readStarter, .NotFound⟩⟩ :=
  C7_second_run_notfound ⟨some "h", none, none⟩ "h" rfl

/-- C10: when `files/newreply.txt` already exists and the pipeline
otherwise succeeds, the rename silently replaces it: the run succeeds
and the final newreply content is the fresh content, not the old one. -/
theorem C10_rename_overwrites (fs : FS) (d old : String)
    (h : fs.starter = some d) (hold : fs.newreply = some old) :
    runSteps noInterference fs =
      .ok ⟨⟨none, none, some (d ++ appendSuffix)⟩,
        [.text d, .text (d ++ appendSuffix)], allSteps, d, d ++ appendSuffix⟩ := by
  obtain ⟨st, rp, nr⟩ := fs
  have h2 : st = some d := h
  subst h2
  exact runSteps_noInter_some d rp nr

/-- C10 witness: newreply pre-exists with content old and is replaced. -/
theorem C10_rename_overwrites_witness :
    runSteps noInterference ⟨some "hi", none, some "old"⟩ =
      .ok ⟨⟨none, none, some ("hi" ++ appendSuffix)⟩,
        [.text "hi", .text ("hi" ++ appendSuffix)], allSteps, "hi",
        "hi" ++ appendSuffix⟩ :=
  C10_rename_overwrites ⟨some "hi", none, some "old"⟩ "hi" "old" rfl rfl

/-- C9: under any interference and initial state the promise of fileOps
resolves normally (with undefined) and never rejects; the pipeline
therefore never triggers the uncaughtException handler and never makes
the process exit non-zero; a failing run merely appends the caught error
to the console log. -/
theorem C9_promise_always_resolves (inter : Interference) (fs : FS) :
    (fileOps inter fs).promise = .ok none
    ∧ processExitCode inter fs = none
    ∧ (fileOps inter fs).log =
        (match runSteps inter fs with
         | .ok o => o.log
         | .error e => e.log ++ [.errLine e.err]) := by
  refine ⟨?_, ?_, ?_⟩
  · cases h : runSteps inter fs <;> simp [fileOps, h]
  · cases h : runSteps inter fs <;> simp [processExitCode, fileOps, h]
  · cases h : runSteps inter fs <;> simp [fileOps, h]

/-- C9 witness: the failing concrete state with no files at all. -/
theorem C9_promise_always_resolves_witness :
    (fileOps noInterference ⟨none, none, none⟩).promise = .ok none
    ∧ processExitCode noInterference ⟨none, none, none⟩ = none
    ∧ (fileOps noInterference ⟨none, none, none⟩).log =
        (match runSteps noInterference ⟨none, none, none⟩ with
         | .ok o => o.log
         | .error e => e.log ++ [.errLine e.err]) :=
  C9_promise_always_resolves noInterference ⟨none, none, none⟩

/-- C2 counterexample: with `files/starter.txt` absent, step 1 fails,
yet the promise resolves normally — no error reaches the caller — and
the process exit code model reports a normal exit, not a non-zero one. -/
theorem C2_counterexample :
    runSteps noInterference ⟨none, none, none⟩ =
      .error ⟨⟨none, none, none⟩, [], [.readStarter], ⟨.readStarter, .NotFound⟩⟩
    ∧ (fileOps noInterference ⟨none, none, none⟩).promise = .ok none
    ∧ processExitCode noInterference ⟨none, none, none⟩ = none :=
  ⟨rfl, rfl, rfl⟩

/-- C2 amended: on any step failure the structured error (failing step
plus kind) is caught inside fileOps and appended to the console log; the
promise still resolves normally and the process does not exit non-zero. -/
theorem C2_amended_failure_logged_only (inter : Interference) (fs : FS)
    (e : InnerErr) (h : runSteps inter fs = .error e) :
    fileOps inter fs = ⟨e.fs, e.log ++ [.errLine e.err], .ok none⟩
    ∧ processExitCode inter fs = none := by
  constructor
  · simp [fileOps, h]
  · simp [processExitCode, fileOps, h]

/-- C2 amended witness: the concrete failing state with no files. -/
theorem C2_amended_failure_logged_only_witness :
    fileOps noInterference ⟨none, none, none⟩ =
      ⟨⟨none, none, none⟩, [.errLine ⟨.readStarter, .NotFound⟩], .ok none⟩
    ∧ processExitCode noInterference ⟨none, none, none⟩ = none :=
  C2_amended_failure_logged_only noInterference ⟨none, none, none⟩
    ⟨⟨none, none, none⟩, [], [.readStarter], ⟨.readStarter, .NotFound⟩⟩ rfl

/-- C3 counterexample: from starter content hello the run succeeds and
the final read produces the expected content, but the promise resolves
with undefined — the content is not the return value of fileOps. -/
theorem C3_counterexample :
    runSteps noInterference ⟨some "hello", none, none⟩ =
      .ok ⟨⟨none, none, some ("hello" ++ appendSuffix)⟩,
        [.text "hello", .text ("hello" ++ appendSuffix)], allSteps, "hello",
        "hello" ++ appendSuffix⟩
    ∧ (fileOps noInterference ⟨some "hello", none, none⟩).promise = .ok none
    ∧ (fileOps noInterference ⟨some "hello", none, none⟩).promise ≠
        .ok (some ("hello" ++ appendSuffix)) := by
  refine ⟨rfl, rfl, ?_⟩
  intro hc
  have h2 : (Except.ok none : Except FsError (Option String)) =
      .ok (some ("hello" ++ appendSuffix)) := hc
  injection h2 with h3
  exact Option.noConfusion h3

/-- C3 amended: on any successful run the promise resolves with
undefined; the final content is not returned but is printed, appearing
as the last console line of the run. -/
theorem C3_amended_content_logged_not_returned (inter : Interference)
    (fs : FS) (o : InnerOk) (h : runSteps inter fs = .ok o) :
    (fileOps inter fs).promise = .ok none
    ∧ (fileOps inter fs).log = o.log
    ∧ o.log.getLast? = some (.text o.newData) := by
  refine ⟨?_, ?_, ?_⟩
  · simp [fileOps, h]
  · simp [fileOps, h]
  · rw [runSteps_ok_log inter fs o h]
    rfl

/-- C3 amended witness: the successful run from starter content hello. -/
theorem C3_amended_content_logged_not_returned_witness :
    (fileOps noInterference ⟨some "hello", none, none⟩).promise = .ok none
    ∧ (fileOps noInterference ⟨some "hello", none, none⟩).log =
        (⟨⟨none, none, some ("hello" ++ appendSuffix)⟩,
          [.text "hello", .text ("hello" ++ appendSuffix)], allSteps, "hello",
          "hello" ++ appendSuffix⟩ : InnerOk).log
    ∧ (⟨⟨none, none, some ("hello" ++ appendSuffix)⟩,
          [.text "hello", .text ("hello" ++ appendSuffix)], allSteps, "hello",
          "hello" ++ appendSuffix⟩ : InnerOk).log.getLast? =
        some (.text (⟨⟨none, none, some ("hello" ++ appendSuffix)⟩,
          [.text "hello", .text ("hello" ++ appendSuffix)], allSteps, "hello",
          "hello" ++ appendSuffix⟩ : InnerOk).newData) :=
  C3_amended_content_logged_not_returned noInterference
    ⟨some "hello", none, none⟩
    ⟨⟨none, none, some ("hello" ++ appendSuffix)⟩,
      [.text "hello", .text ("hello" ++ appendSuffix)], allSteps, "hello",
      "hello" ++ appendSuffix⟩ rfl

/-- C8: in every run (any interference) the executed steps form an
initial segment of the declared order — step N+1 begins only after step
N finished — no step ever appears twice (no retry), and the delete step
runs only if the initial read succeeded. -/
theorem C8_strict_sequencing (inter : Interference) (fs : FS) :
    innerTrace (runSteps inter fs) =
      allSteps.take (innerTrace (runSteps inter fs)).length
    ∧ (innerTrace (runSteps inter fs)).Nodup
    ∧ (Step.unlinkStarter ∈ innerTrace (runSteps inter fs) →
        (inter 0 fs).starter ≠ none) := by
  rcases h1 : (inter 0 fs).starter with _ | d
  · rw [show runSteps inter fs =
        .error ⟨inter 0 fs, [], [.readStarter], ⟨.readStarter, .NotFound⟩⟩ from by
      unfold runSteps; rw [h1]]
    refine ⟨rfl, by simp [innerTrace], ?_⟩
    intro hmem
    simp [innerTrace] at hmem
  · rcases h2 : (inter 1 (inter 0 fs)).starter with _ | x
    · rw [show runSteps inter fs =
          .error ⟨inter 1 (inter 0 fs), [.text d],
            [.readStarter, .unlinkStarter], ⟨.unlinkStarter, .NotFound⟩⟩ from by
        unfold runSteps; rw [h1, h2]]
      refine ⟨rfl, by simp [innerTrace], ?_⟩
      intro hmem
      simp [h1]
    · rw [show runSteps inter fs =
          stepsFromWrite inter d { inter 1 (inter 0 fs) with starter := none } from by
        unfold runSteps; rw [h1, h2]]
      rcases trace_stepsFromWrite inter d
          { inter 1 (inter 0 fs) with starter := none } with ht | ht <;>
        rw [ht] <;> exact ⟨by decide, by decide, fun _ => by simp [h1]⟩

/-- C8 witness: the uninterfered run from starter content a. -/
theorem C8_strict_sequencing_witness :
    innerTrace (runSteps noInterference ⟨some "a", none, none⟩) =
      allSteps.take
        (innerTrace (runSteps noInterference ⟨some "a", none, none⟩)).length
    ∧ (innerTrace (runSteps noInterference ⟨some "a", none, none⟩)).Nodup
    ∧ (Step.unlinkStarter ∈ innerTrace (runSteps noInterference ⟨some "a", none, none⟩) →
        (noInterference 0 ⟨some "a", none, none⟩).starter ≠ none) :=
  C8_strict_sequencing noInterference ⟨some "a", none, none⟩

/-- C5 counterexample: starter holds a and a stale newreply exists;
the outside world removes reply just before the rename, so the rename
fails with an error naming the rename step — but newreply still exists
after the run (the stale file), contradicting the claim as stated. -/
theorem C5_counterexample :
    runSteps dropReplyBeforeRename ⟨some "a", none, some "stale"⟩ =
      .error ⟨⟨none, none, some "stale"⟩, [.text "a"],
        [.readStarter, .unlinkStarter, .writeReply, .appendReply, .renameReply],
        ⟨.renameReply, .NotFound⟩⟩
    ∧ (fileOps dropReplyBeforeRename ⟨some "a", none, some "stale"⟩).fs.newreply ≠
        none := by
  refine ⟨rfl, ?_⟩
  intro hc
  have h2 : (some "stale" : Option String) = none := hc
  exact Option.noConfusion h2

/-- C5 amended: whenever the rename step fails the error identifies the
rename step (NotFound from rename); and provided newreply did not exist
before the run and the interference never creates it, newreply does not
exist after the run either — the failed rename creates nothing. -/
theorem C5_amended_rename_failure (inter : Interference) (fs : FS)
    (e : InnerErr) (hrun : runSteps inter fs = .error e)
    (hstep : e.err.step = Step.renameReply)
    (hpres : ∀ k s, s.newreply = none → (inter k s).newreply = none)
    (hinit : fs.newreply = none) :
    e.err = ⟨Step.renameReply, ErrKind.NotFound⟩ ∧ e.fs.newreply = none := by
  unfold runSteps at hrun
  split at hrun
  · injection hrun with h2
    rw [← h2] at hstep
    simp at hstep
  · split at hrun
    · injection hrun with h2
      rw [← h2] at hstep
      simp at hstep
    · unfold stepsFromWrite stepsFromAppend stepsFromRename at hrun
      split at hrun
      · injection hrun with h2
        subst h2
        refine ⟨rfl, ?_⟩
        apply hpres
        rw [upd_reply_newreply]
        apply hpres
        rw [upd_reply_newreply]
        apply hpres
        rw [upd_starter_newreply]
        apply hpres
        exact hpres 0 fs hinit
      · unfold stepsFromReadNew at hrun
        split at hrun
        · injection hrun with h2
          rw [← h2] at hstep
          simp at hstep
        · exact Except.noConfusion hrun

/-- C5 amended witness: the simulated rename failure from starter a with
no pre-existing newreply. -/
theorem C5_amended_rename_failure_witness :
    (⟨⟨none, none, none⟩, [.text "a"],
      [.readStarter, .unlinkStarter, .writeReply, .appendReply, .renameReply],
      ⟨.renameReply, .NotFound⟩⟩ : InnerErr).err =
        ⟨Step.renameReply, ErrKind.NotFound⟩
    ∧ (⟨⟨none, none, none⟩, [.text "a"],
      [.readStarter, .unlinkStarter, .writeReply, .appendReply, .renameReply],
      ⟨.renameReply, .NotFound⟩⟩ : InnerErr).fs.newreply = none :=
  C5_amended_rename_failure dropReplyBeforeRename ⟨some "a", none, none⟩
    ⟨⟨none, none, none⟩, [.text "a"],
      [.readStarter, .unlinkStarter, .writeReply, .appendReply, .renameReply],
      ⟨.renameReply, .NotFound⟩⟩ rfl rfl
    (by
      intro k s h
      simp only [dropReplyBeforeRename]
      split
      · exact h
      · exact h)
    rfl

end FilePipeline
